import Mathlib

/-!
Verification of the objective definition in `src/problem_sandbox.cpp`.

The source file defines a C++ struct `example0_g` with const methods
`fitness`, `gradient`, `dsparsity`, `get_n`, `get_nf`, `get_bounds`,
`get_name`, `extra_info` and `best_known`.  We embed it shallowly:

* `double` values are modelled as rationals (`ℚ`); every computation in
  the source is a sum/product of inputs and small integer literals, so
  the algebraic content is faithfully captured.
* `decision_vector` / `fitness_vector` / `gradient_vector`
  (`std::vector<double>`) become `List ℚ`.
* `sparsity_pattern` (`std::vector<std::pair<long, long>>`) becomes
  `List (ℤ × ℤ)`.
* `operator[]` on a `std::vector` is unchecked: reading past the end is
  undefined behaviour.  The embedding reads with `List.getElem?` and the
  methods that index into their argument return `Option`, with `none`
  modelling an out-of-range access.
* The struct has no data members and all methods are `const`; the
  object state is therefore an empty structure, and a small call-trace
  semantics (`Example0G.call` / `Example0G.runCalls`) makes the
  statelessness claims expressible.
-/

/-- The C++ struct `example0_g`: it has no data members. -/
structure Example0G

/-- The (unique) instance constructed in `main`: `example0_g{}`. -/
def example0_g : Example0G := {}

/-- `fitness`: allocates `fitness_vector retval(1)` (one zero) and sets
`retval[0] = x[0]*x[0] + x[1]*x[1] + x[2]*x[2] + x[3]*x[3]`.  The four
unchecked reads `x[0] .. x[3]` are modelled with `getElem?`; `none`
models an out-of-range access. -/
def Example0G.fitness (_ : Example0G) (x : List ℚ) : Option (List ℚ) :=
  match x[0]?, x[1]?, x[2]?, x[3]? with
  | some x0, some x1, some x2, some x3 =>
      some ((List.replicate 1 (0 : ℚ)).set 0 (x0*x0 + x1*x1 + x2*x2 + x3*x3))
  | _, _, _, _ => none

/-- `gradient`: allocates `gradient_vector retval(4, 0.)` and sets
`retval[i] = 2 * x[i]` for `i = 0..3`, reading `x` unchecked. -/
def Example0G.gradient (_ : Example0G) (x : List ℚ) : Option (List ℚ) :=
  match x[0]?, x[1]?, x[2]?, x[3]? with
  | some x0, some x1, some x2, some x3 =>
      some (((((List.replicate 4 (0 : ℚ)).set 0 (2*x0)).set 1
        (2*x1)).set 2 (2*x2)).set 3 (2*x3))
  | _, _, _, _ => none

/-- `dsparsity`: starts from an empty pattern and pushes back
`std::pair<long, long>(0, i)` for `i = 0..3`. -/
def Example0G.dsparsity (_ : Example0G) : List (ℤ × ℤ) :=
  (List.range 4).foldl (fun retval i => retval ++ [((0 : ℤ), (i : ℤ))]) []

/-- `get_n`: returns `4u`. -/
def Example0G.get_n (_ : Example0G) : ℕ := 4

/-- `get_nf`: returns `1u`. -/
def Example0G.get_nf (_ : Example0G) : ℕ := 1

/-- `get_bounds`: returns the pair `(lb, ub)` with
`lb = {-10,-10,-10,-10}` and `ub = {10,10,10,10}`. -/
def Example0G.get_bounds (_ : Example0G) : List ℚ × List ℚ :=
  ([-10, -10, -10, -10], [10, 10, 10, 10])

/-- `get_name`: returns `"My Problem"`. -/
def Example0G.get_name (_ : Example0G) : String := "My Problem"

/-- `extra_info`: builds the three-line description via a string stream. -/
def Example0G.extra_info (_ : Example0G) : String :=
  "This is a simple toy problem with one fitness, " ++ "\n" ++
  "no constraint and a fixed dimension of 4." ++ "\n" ++
  "The fitness function gradients are also implemented" ++ "\n"

/-- `best_known`: returns the singleton `{decision_vector{0,0,0,0}}`. -/
def Example0G.best_known (_ : Example0G) : List (List ℚ) :=
  [[0, 0, 0, 0]]

/-- One method call on the object, for the call-trace semantics. -/
inductive MCall where
  | fitness (x : List ℚ)
  | gradient (x : List ℚ)
  | dsparsity
  | getN
  | getNf
  | getBounds
  | getName
  | extraInfo
  | bestKnown

/-- The value returned by one method call. -/
inductive MResult where
  | fvec (v : Option (List ℚ))
  | gvec (v : Option (List ℚ))
  | sp (p : List (ℤ × ℤ))
  | size (n : ℕ)
  | bounds (b : List ℚ × List ℚ)
  | text (s : String)
  | vecs (vs : List (List ℚ))

/-- Dispatch of one method call.  Every method of `example0_g` is
`const` and the struct has no members, so a call returns its value
together with the unchanged object. -/
def Example0G.call (g : Example0G) : MCall → MResult × Example0G
  | .fitness x => (.fvec (g.fitness x), g)
  | .gradient x => (.gvec (g.gradient x), g)
  | .dsparsity => (.sp g.dsparsity, g)
  | .getN => (.size g.get_n, g)
  | .getNf => (.size g.get_nf, g)
  | .getBounds => (.bounds g.get_bounds, g)
  | .getName => (.text g.get_name, g)
  | .extraInfo => (.text g.extra_info, g)
  | .bestKnown => (.vecs g.best_known, g)

/-- Runs a sequence of method calls on the object, threading the object
state through, and collects the results in order. -/
def Example0G.runCalls (g : Example0G) : List MCall → List MResult × Example0G
  | [] => ([], g)
  | c :: cs =>
      let r := g.call c
      let rest := r.2.runCalls cs
      (r.1 :: rest.1, rest.2)

/-- The error taxonomy of the problem container contract. -/
inductive PError where
  | DimensionMismatch
deriving DecidableEq

/-- Modelled from the spec: the problem container (`include/problem.hpp`,
included by the source file but not present under `src/`) wraps the
objective and, per the contract, the "caller must supply a vector of
exactly length `n`" to `fitness`, otherwise the call signals
`DimensionMismatch` and returns no fitness value.  The wrapper checks
the length of the decision vector against `get_n()` and only then
invokes the objective. -/
def problem.fitness (x : List ℚ) : Except PError (List ℚ) :=
  if x.length = example0_g.get_n then
    Except.ok ((example0_g.fitness x).getD [])
  else
    Except.error PError.DimensionMismatch

/-- C1: for every decision vector `x` of length 4, `fitness x` is a
vector of length 1 whose single entry is `x0^2 + x1^2 + x2^2 + x3^2`;
in particular `fitness [2,2,2,2] = [16]`. -/
theorem c1_fitness_sum_of_squares :
    (∀ x0 x1 x2 x3 : ℚ,
        example0_g.fitness [x0, x1, x2, x3]
          = some [x0^2 + x1^2 + x2^2 + x3^2]) ∧
    example0_g.fitness [2, 2, 2, 2] = some [16] := by
  constructor
  · intro x0 x1 x2 x3
    have h : example0_g.fitness [x0, x1, x2, x3]
        = some [x0*x0 + x1*x1 + x2*x2 + x3*x3] := rfl
    rw [h]
    simp only [Option.some.injEq, List.cons.injEq, and_true]
    ring
  · have h : example0_g.fitness [2, 2, 2, 2] = some [2*2 + 2*2 + 2*2 + 2*2] := rfl
    rw [h]
    norm_num

/-- C2: calling the contract-level `fitness` with a decision vector
whose length is not 4 signals `DimensionMismatch`: the call returns an
error, not a fitness value, and the input is neither truncated nor
padded. -/
theorem c2_dimension_mismatch (x : List ℚ) (h : x.length ≠ 4) :
    problem.fitness x = Except.error PError.DimensionMismatch := by
  unfold problem.fitness
  rw [if_neg]
  exact h

/-- C2 witness: the length-3 vector `[1,2,3]` signals
`DimensionMismatch`. -/
theorem c2_dimension_mismatch_witness :
    problem.fitness [1, 2, 3] = Except.error PError.DimensionMismatch :=
  c2_dimension_mismatch [1, 2, 3] (by simp)

/-- C3: for every decision vector `[x0,x1,x2,x3]`, `gradient` returns
`[2*x0, 2*x1, 2*x2, 2*x3]`; entry `k` of that vector corresponds to
pair `k = (0, k)` of `dsparsity`, and it is the partial derivative of
fitness component 0 with respect to variable `k`: replacing variable
`k` by `t` changes the fitness by exactly
`gradient[k]*(t - xk) + (t - xk)^2` (the exact first-order expansion of
the quadratic objective).  In particular
`gradient [2,2,2,2] = [4,4,4,4]`. -/
theorem c3_gradient_entries :
    ∀ x0 x1 x2 x3 : ℚ,
      example0_g.gradient [x0, x1, x2, x3] = some [2*x0, 2*x1, 2*x2, 2*x3] ∧
      example0_g.dsparsity = [(0, 0), (0, 1), (0, 2), (0, 3)] ∧
      (∀ t, example0_g.fitness [t, x1, x2, x3]
          = some [(x0^2 + x1^2 + x2^2 + x3^2) + (2*x0)*(t - x0) + (t - x0)^2]) ∧
      (∀ t, example0_g.fitness [x0, t, x2, x3]
          = some [(x0^2 + x1^2 + x2^2 + x3^2) + (2*x1)*(t - x1) + (t - x1)^2]) ∧
      (∀ t, example0_g.fitness [x0, x1, t, x3]
          = some [(x0^2 + x1^2 + x2^2 + x3^2) + (2*x2)*(t - x2) + (t - x2)^2]) ∧
      (∀ t, example0_g.fitness [x0, x1, x2, t]
          = some [(x0^2 + x1^2 + x2^2 + x3^2) + (2*x3)*(t - x3) + (t - x3)^2]) ∧
      example0_g.gradient [2, 2, 2, 2] = some [4, 4, 4, 4] := by
  intro x0 x1 x2 x3
  refine ⟨rfl, rfl, ?_, ?_, ?_, ?_, ?_⟩
  · intro t
    have h : example0_g.fitness [t, x1, x2, x3]
        = some [t*t + x1*x1 + x2*x2 + x3*x3] := rfl
    rw [h]
    simp only [Option.some.injEq, List.cons.injEq, and_true]
    ring
  · intro t
    have h : example0_g.fitness [x0, t, x2, x3]
        = some [x0*x0 + t*t + x2*x2 + x3*x3] := rfl
    rw [h]
    simp only [Option.some.injEq, List.cons.injEq, and_true]
    ring
  · intro t
    have h : example0_g.fitness [x0, x1, t, x3]
        = some [x0*x0 + x1*x1 + t*t + x3*x3] := rfl
    rw [h]
    simp only [Option.some.injEq, List.cons.injEq, and_true]
    ring
  · intro t
    have h : example0_g.fitness [x0, x1, x2, t]
        = some [x0*x0 + x1*x1 + x2*x2 + t*t] := rfl
    rw [h]
    simp only [Option.some.injEq, List.cons.injEq, and_true]
    ring
  · have h : example0_g.gradient [2, 2, 2, 2]
        = some [2*2, 2*2, 2*2, 2*2] := rfl
    rw [h]
    norm_num

/-- C4: `dsparsity` returns exactly the four pairs
`(0,0), (0,1), (0,2), (0,3)` in that order, and for every decision
vector of length 4 the gradient has length 4, matching that pattern. -/
theorem c4_dsparsity_pattern :
    example0_g.dsparsity = [(0, 0), (0, 1), (0, 2), (0, 3)] ∧
    example0_g.dsparsity.length = 4 ∧
    ∀ x0 x1 x2 x3 : ℚ,
      (example0_g.gradient [x0, x1, x2, x3]).map List.length
        = some example0_g.dsparsity.length := by
  refine ⟨rfl, rfl, ?_⟩
  intro x0 x1 x2 x3
  rfl

/-- C5: `get_bounds` returns `([-10,-10,-10,-10], [10,10,10,10])`, both
vectors of length 4, and the bounds are pairwise ordered:
`lower[i] ≤ upper[i]` at every index. -/
theorem c5_bounds :
    example0_g.get_bounds = ([-10, -10, -10, -10], [10, 10, 10, 10]) ∧
    example0_g.get_bounds.1.length = 4 ∧
    example0_g.get_bounds.2.length = 4 ∧
    List.Forall₂ (· ≤ ·) example0_g.get_bounds.1 example0_g.get_bounds.2 := by
  refine ⟨rfl, rfl, rfl, ?_⟩
  simp only [Example0G.get_bounds, List.forall₂_cons, List.Forall₂.nil]
  norm_num

/-- Helper: a method call never changes the object state (every method
of `example0_g` is `const`). -/
theorem Example0G.call_snd (g : Example0G) (c : MCall) : (g.call c).2 = g := by
  cases c <;> rfl

/-- C6: `get_n` returns 4 and `get_nf` returns 1, and these values are
invariant: after any sequence of method calls on the object, the
getters still return 4 and 1. -/
theorem c6_dimensions_invariant :
    ∀ (g : Example0G) (cs : List MCall),
      ((g.runCalls cs).2).get_n = 4 ∧
      ((g.runCalls cs).2).get_nf = 1 ∧
      ((g.runCalls cs).2).call MCall.getN
        = (MResult.size 4, (g.runCalls cs).2) ∧
      ((g.runCalls cs).2).call MCall.getNf
        = (MResult.size 1, (g.runCalls cs).2) := by
  intro g cs
  exact ⟨rfl, rfl, rfl, rfl⟩

/-- C7: `best_known` returns a collection with exactly one element, the
decision vector `[0,0,0,0]`, and the fitness at that element is `[0]`. -/
theorem c7_best_known :
    example0_g.best_known = [[0, 0, 0, 0]] ∧
    example0_g.best_known.length = 1 ∧
    example0_g.fitness [0, 0, 0, 0] = some [0] := by
  refine ⟨rfl, rfl, ?_⟩
  have h : example0_g.fitness [0, 0, 0, 0] = some [0*0 + 0*0 + 0*0 + 0*0] := rfl
  rw [h]
  norm_num

/-- C8: the origin is the global minimum: for every decision vector
`[x0,x1,x2,x3]` the fitness is `some [v]` with `0 ≤ v`, the value `0`
is attained exactly at `[0,0,0,0]`, and `v` dominates the fitness value
at the origin. -/
theorem c8_origin_global_minimum :
    ∀ x0 x1 x2 x3 : ℚ, ∃ v : ℚ,
      example0_g.fitness [x0, x1, x2, x3] = some [v] ∧
      0 ≤ v ∧
      (v = 0 ↔ [x0, x1, x2, x3] = ([0, 0, 0, 0] : List ℚ)) ∧
      ∃ v0 : ℚ, example0_g.fitness [(0 : ℚ), 0, 0, 0] = some [v0] ∧ v0 ≤ v := by
  intro x0 x1 x2 x3
  refine ⟨x0*x0 + x1*x1 + x2*x2 + x3*x3, rfl, ?_, ?_, 0, ?_, ?_⟩
  · nlinarith [mul_self_nonneg x0, mul_self_nonneg x1,
      mul_self_nonneg x2, mul_self_nonneg x3]
  · constructor
    · intro h
      have h0 : x0 = 0 := by
        nlinarith [mul_self_nonneg x0, mul_self_nonneg x1,
          mul_self_nonneg x2, mul_self_nonneg x3]
      have h1 : x1 = 0 := by
        nlinarith [mul_self_nonneg x0, mul_self_nonneg x1,
          mul_self_nonneg x2, mul_self_nonneg x3]
      have h2 : x2 = 0 := by
        nlinarith [mul_self_nonneg x0, mul_self_nonneg x1,
          mul_self_nonneg x2, mul_self_nonneg x3]
      have h3 : x3 = 0 := by
        nlinarith [mul_self_nonneg x0, mul_self_nonneg x1,
          mul_self_nonneg x2, mul_self_nonneg x3]
      rw [h0, h1, h2, h3]
    · intro h
      simp only [List.cons.injEq, and_true] at h
      obtain ⟨h0, h1, h2, h3⟩ := h
      rw [h0, h1, h2, h3]
      ring
  · have h : example0_g.fitness [(0 : ℚ), 0, 0, 0]
        = some [0*0 + 0*0 + 0*0 + 0*0] := rfl
    rw [h]
    norm_num
  · nlinarith [mul_self_nonneg x0, mul_self_nonneg x1,
      mul_self_nonneg x2, mul_self_nonneg x3]

/-- C9: every method of the objective definition is pure and
deterministic: running any call sequence leaves the object unchanged,
each result in the trace is a function of its own call alone (equal to
the result of that call on a fresh object, independent of any prior
call), and the result of a call does not depend on the object state. -/
theorem c9_methods_pure :
    ∀ (g : Example0G) (cs : List MCall),
      (g.runCalls cs).2 = g ∧
      (g.runCalls cs).1 = cs.map (fun c => (g.call c).1) ∧
      ∀ (g0 g1 : Example0G) (c : MCall), (g0.call c).1 = (g1.call c).1 := by
  intro g cs
  refine ⟨?_, ?_, fun g0 g1 c => by cases g0; cases g1; rfl⟩
  · rfl
  · induction cs with
    | nil => rfl
    | cons c cs ih =>
        show (g.call c).1 :: ((g.call c).2.runCalls cs).1
            = (c :: cs).map (fun c => (g.call c).1)
        rw [List.map_cons]
        exact congrArg (List.cons (g.call c).1) ih

/-- C10 (implicit): `fitness` and `gradient` perform no length check:
on any input with at least four components they succeed, read only the
first four components (a longer input gives the same result as its
4-element front, so a length-5 input is accepted and its fifth
component ignored), and only inputs shorter than 4 hit an out-of-range
access (modelled as `none`).  In particular
`fitness [1,1,1,1,1] = some [4]`. -/
theorem c10_no_length_check :
    (∀ (x0 x1 x2 x3 : ℚ) (t : List ℚ),
        example0_g.fitness (x0 :: x1 :: x2 :: x3 :: t)
          = some [x0*x0 + x1*x1 + x2*x2 + x3*x3] ∧
        example0_g.fitness (x0 :: x1 :: x2 :: x3 :: t)
          = example0_g.fitness ((x0 :: x1 :: x2 :: x3 :: t).take 4) ∧
        example0_g.gradient (x0 :: x1 :: x2 :: x3 :: t)
          = some [2*x0, 2*x1, 2*x2, 2*x3] ∧
        example0_g.gradient (x0 :: x1 :: x2 :: x3 :: t)
          = example0_g.gradient ((x0 :: x1 :: x2 :: x3 :: t).take 4)) ∧
    (∀ x : List ℚ, x.length < 4 →
        example0_g.fitness x = none ∧ example0_g.gradient x = none) ∧
    example0_g.fitness [1, 1, 1, 1, 1] = some [4] := by
  refine ⟨?_, ?_, ?_⟩
  · intro x0 x1 x2 x3 t
    refine ⟨?_, ?_, ?_, ?_⟩ <;>
      simp [Example0G.fitness, Example0G.gradient]
  · intro x h
    cases x with
    | nil => exact ⟨rfl, rfl⟩
    | cons a x =>
        cases x with
        | nil => exact ⟨rfl, rfl⟩
        | cons b x =>
            cases x with
            | nil => exact ⟨rfl, rfl⟩
            | cons c x =>
                cases x with
                | nil => exact ⟨rfl, rfl⟩
                | cons d x =>
                    simp only [List.length_cons] at h
                    omega
  · have h : example0_g.fitness [1, 1, 1, 1, 1]
        = some [1*1 + 1*1 + 1*1 + 1*1] := rfl
    rw [h]
    norm_num

/-- C10 witness: the length-5 vector `[1,1,1,1,1]` is accepted with
fitness `[4]`, while the length-3 vector `[1,2,3]` hits an
out-of-range access. -/
theorem c10_no_length_check_witness :
    example0_g.fitness [1, 1, 1, 1, 1] = some [4] ∧
    example0_g.fitness [1, 2, 3] = none :=
  ⟨c10_no_length_check.2.2, (c10_no_length_check.2.1 [1, 2, 3] (by simp)).1⟩
